import Mathlib

/-!
Verification development for the SmartIntern backend.

The development is a shallow embedding of the routes in `api/index.py`,
the Beanie document models in `api/models.py` and the Gemini wrapper
functions in `api/ai_utils.py`.

Modelling conventions:
* Python `datetime` values are integer Unix seconds (`Int`).
  `timedelta.days` is floor division of the elapsed seconds by 86400
  (Python floors toward negative infinity), and
  `timedelta.total_seconds() / 3600` compared against the integers 0 and
  24 is rendered exactly as `0 < secs` and `secs < 86400`.
* The Mongo collections behind Beanie are Lean lists of documents;
  `Document.insert` appends, `Document.save` replaces the document with
  the same id, `Document.delete` removes it, and `Application.get`
  is `List.find?` on the id.
* A raised `HTTPException(code, detail)` is the error branch of an
  `Except`; every state-passing route also returns the (possibly
  unchanged) store so that non-mutation is an actual equation.
* The Gemini SDK call (`GenerativeModel(...).generate_content`) is an
  opaque parameter of type `String → Except String String`; its error
  branch carries `str(e)` for the exception `e` it raised.
-/

namespace SmartIntern

/-- `fastapi.HTTPException` with its status code and detail string. -/
structure HTTPException where
  status_code : Nat
  detail : String
deriving DecidableEq, Repr

/-- Python `str(HTTPException(code, detail))`, which Starlette renders as
`"{code}: {detail}"`. -/
def strHTTPException (e : HTTPException) : String :=
  toString e.status_code ++ ": " ++ e.detail

/-- The `User` document of `api/models.py`.  The class-level default
`created_at: datetime = datetime.now()` is evaluated once, when the module
is loaded; the load-time instant is threaded in explicitly where the
default is applied. -/
structure User where
  email : String
  hashed_password : String
  created_at : Int
deriving DecidableEq, Repr

/-- The `Application` document of `api/models.py`.  `id` is Beanie's
`Optional[PydanticObjectId]`, `none` until the document is inserted. -/
structure Application where
  id : Option Nat
  user_email : String
  company : String
  role : String
  status : String
  applied_date : Int
  job_description : Option String
  resume_text : Option String
  match_score : Int
  missing_keywords : List String
  next_action_date : Option Int
  reminder_note : Option String
deriving DecidableEq, Repr

/-- Construction of an `Application` from a request body, applying the
field defaults of `api/models.py`: `status` defaults to `"Applied"`,
`match_score` to `0`, `missing_keywords` to `[]`, the optional fields to
`None`, and `applied_date` to the class-level default `datetime.now()` —
which Python evaluated once at class-definition time, so the default is
the fixed module-load instant `loadTime`, not the instant the record is
created.  A `none` argument means the field was absent from the body. -/
def applicationFromDraft (loadTime : Int) (user_email company role : String)
    (status : Option String) (applied_date : Option Int)
    (job_description resume_text : Option String)
    (match_score : Option Int) (missing_keywords : Option (List String))
    (next_action_date : Option Int) (reminder_note : Option String) :
    Application where
  id := none
  user_email := user_email
  company := company
  role := role
  status := status.getD "Applied"
  applied_date := applied_date.getD loadTime
  job_description := job_description
  resume_text := resume_text
  match_score := match_score.getD 0
  missing_keywords := missing_keywords.getD []
  next_action_date := next_action_date
  reminder_note := reminder_note

/-- `Application.get(id)`: fetch a document by id. -/
def appGet (id : Nat) (db : List Application) : Option Application :=
  db.find? (fun a => a.id == some id)

/-- The raised error shared by `delete_app` and `update_status`:
`HTTPException(404, "Not found")`. -/
def notFoundExc : HTTPException := ⟨404, "Not found"⟩

/-- `GET /api/applications` (`get_apps`): all applications whose
`user_email` equals the authenticated caller. -/
def get_apps (current_user : String) (db : List Application) :
    List Application :=
  db.filter (fun a => a.user_email == current_user)

/-- `POST /api/applications` (`create_app`): overwrite `user_email` with
the caller, insert, and return the inserted document.  `insert` assigns
the generated identifier `newId` when the draft carries none. -/
def create_app (current_user : String) (app_data : Application)
    (db : List Application) (newId : Nat) :
    Application × List Application :=
  let stamped := { app_data with user_email := current_user }
  let stored := { stamped with id := some (stamped.id.getD newId) }
  (stored, db ++ [stored])

/-- `DELETE /api/applications/{id}` (`delete_app`): delete only when the
document exists and is owned by the caller; otherwise raise
`HTTPException(404, "Not found")`.  The second component is the store
after the call. -/
def delete_app (current_user : String) (id : Nat) (db : List Application) :
    Except HTTPException String × List Application :=
  match appGet id db with
  | some app =>
    if app.user_email = current_user then
      (Except.ok "Deleted", db.filter (fun a => !(a.id == app.id)))
    else
      (Except.error notFoundExc, db)
  | none => (Except.error notFoundExc, db)

/-- `PATCH /api/applications/{id}` (`update_status`): when the document
exists and is owned by the caller, set `status`, save, and return the
updated document; otherwise raise `HTTPException(404, "Not found")`.
`save` replaces the stored document having the same id. -/
def update_status (current_user : String) (id : Nat) (status : String)
    (db : List Application) :
    Except HTTPException Application × List Application :=
  match appGet id db with
  | some app =>
    if app.user_email = current_user then
      let updated := { app with status := status }
      (Except.ok updated,
        db.map (fun a => if a.id == updated.id then updated else a))
    else
      (Except.error notFoundExc, db)
  | none => (Except.error notFoundExc, db)

/-- `POST /api/auth/signup` (`signup`).  The whole body runs inside
`try: ... except Exception as e: raise HTTPException(500, str(e))`.
Because `fastapi.HTTPException` is itself an `Exception` subclass, the
`raise HTTPException(400, "Email already registered")` on a duplicate
email is caught by that blanket handler and re-raised as
`HTTPException(500, str(e))`, so the duplicate-email response has status
500, not 400.  `get_password_hash` (from the absent `api/auth.py`) is an
opaque parameter; `loadTime` is the class-definition-time default of
`User.created_at`. -/
def signup (get_password_hash : String → String) (loadTime : Int)
    (email password : String) (users : List User) :
    Except HTTPException String × List User :=
  match users.find? (fun u => u.email == email) with
  | some _ =>
    (Except.error ⟨500, strHTTPException ⟨400, "Email already registered"⟩⟩,
      users)
  | none =>
    (Except.ok "User created",
      users ++ [⟨email, get_password_hash password, loadTime⟩])

/-- One entry of the `notifications` list built by `run_automation`. -/
structure Notification where
  id : String
  type : String
  message : String
deriving DecidableEq, Repr

/-- Python `str` applied to a Beanie id field (`str(app.id)`);
`str(None)` is `"None"`. -/
def pyStrId : Option Nat → String
  | some n => toString n
  | none => "None"

/-- The alert message interpolated by `run_automation`. -/
def interviewMsg (company : String) : String :=
  "🚀 Good luck! Interview with " ++ company ++ " is tomorrow!"

/-- The follow-up message interpolated by `run_automation`. -/
def staleMsg (company : String) : String :=
  "💤 No news from " ++ company ++ " in 2 weeks. Time to follow up?"

/-- The notifications `run_automation` appends for one application:
first the upcoming-interview alert, emitted when `next_action_date` is
set and `diff = (next_action_date - today).total_seconds() / 3600`
satisfies `0 < diff < 24` (in exact arithmetic on whole seconds:
`0 < d - today < 86400`); then the stale follow-up, emitted when
`status == "Applied"` and `(today - applied_date).days > 14`, where
`timedelta.days` floors the elapsed seconds by 86400. -/
def appNotifications (today : Int) (app : Application) : List Notification :=
  (match app.next_action_date with
   | some d =>
     if 0 < d - today ∧ d - today < 86400 then
       [⟨pyStrId app.id, "alert", interviewMsg app.company⟩]
     else []
   | none => []) ++
  (if app.status = "Applied" ∧ 14 < Int.fdiv (today - app.applied_date) 86400 then
     [⟨pyStrId app.id, "info", staleMsg app.company⟩]
   else [])

/-- `GET /api/automation/run` (`run_automation`): scan the caller's
applications in storage order and collect the notifications of both
rules. -/
def run_automation (current_user : String) (today : Int)
    (db : List Application) : List Notification :=
  (db.filter (fun a => a.user_email == current_user)).flatMap
    (appNotifications today)

/- ### Helper lemmas about the automation engine -/

lemma mem_run_automation (current_user : String) (today : Int)
    (db : List Application) (n : Notification) :
    n ∈ run_automation current_user today db ↔
      ∃ a ∈ db, a.user_email = current_user ∧ n ∈ appNotifications today a := by
  simp only [run_automation, List.mem_flatMap, List.mem_filter, beq_iff_eq]
  constructor
  · rintro ⟨a, ⟨ha, hu⟩, hn⟩
    exact ⟨a, ha, hu, hn⟩
  · rintro ⟨a, ha, hu, hn⟩
    exact ⟨a, ⟨ha, hu⟩, hn⟩

lemma mem_appNotifications (today : Int) (a : Application) (n : Notification) :
    n ∈ appNotifications today a ↔
      ((∃ d, a.next_action_date = some d ∧ 0 < d - today ∧ d - today < 86400) ∧
        n = ⟨pyStrId a.id, "alert", interviewMsg a.company⟩) ∨
      ((a.status = "Applied" ∧ 14 < Int.fdiv (today - a.applied_date) 86400) ∧
        n = ⟨pyStrId a.id, "info", staleMsg a.company⟩) := by
  unfold appNotifications
  rcases h : a.next_action_date with _ | d <;>
    · simp only [List.mem_append, List.mem_singleton, h]
      split_ifs with h1 <;> simp_all

/- ### Claim theorems: CRUD -/

/-- C1: for every caller and every draft, `create_app` stores and returns
a record whose `user_email` equals the caller, regardless of the owner
value supplied in the draft. -/
theorem c1_create_stamps_owner (current_user : String)
    (app_data : Application) (db : List Application) (newId : Nat) :
    (create_app current_user app_data db newId).1.user_email = current_user ∧
    (create_app current_user app_data db newId).2 =
      db ++ [(create_app current_user app_data db newId).1] := by
  constructor <;> rfl

/-- C2: when no application has the requested id, or it exists but its
owner differs from the caller, `update_status` and `delete_app` both
fail with the identical error `HTTPException(404, "Not found")` and
leave the store unchanged. -/
theorem c2_notfound_uniform (current_user : String) (id : Nat)
    (newStatus : String) (db : List Application)
    (h : appGet id db = none ∨
      ∃ app, appGet id db = some app ∧ app.user_email ≠ current_user) :
    update_status current_user id newStatus db = (Except.error notFoundExc, db) ∧
    delete_app current_user id db = (Except.error notFoundExc, db) := by
  rcases h with h | ⟨app, happ, hne⟩
  · constructor <;> simp [update_status, delete_app, h]
  · constructor <;> simp [update_status, delete_app, happ, hne]

/-- A sample application owned by `"b@x.com"`, used by witnesses. -/
def sampleAppOfB : Application :=
  ⟨some 1, "b@x.com", "Acme", "Dev", "Applied", 0, none, none, 0, [],
    none, none⟩

/-- A sample application owned by `"u@x.com"`, used by witnesses. -/
def sampleAppOfU : Application :=
  ⟨some 7, "u@x.com", "Acme", "Dev", "Applied", 5, some "jd", none, 42,
    ["k"], some 99, some "note"⟩

/-- Witness for C2: a store holding one application owned by `"b@x.com"`;
under caller `"a@x.com"` both endpoints return the identical 404 and do
not change the store. -/
theorem c2_notfound_uniform_witness :
    update_status "a@x.com" 1 "Offer" [sampleAppOfB] =
      (Except.error notFoundExc, [sampleAppOfB]) ∧
    delete_app "a@x.com" 1 [sampleAppOfB] =
      (Except.error notFoundExc, [sampleAppOfB]) :=
  c2_notfound_uniform "a@x.com" 1 "Offer" [sampleAppOfB]
    (Or.inr ⟨sampleAppOfB, by decide, by decide⟩)

/-- C9: a successful `update_status` returns the stored record with only
`status` replaced — every other field keeps its previous value — and the
new store is the old one with exactly the records of that id replaced by
the updated record. -/
theorem c9_update_only_status (current_user : String) (id : Nat)
    (newStatus : String) (db : List Application) (app : Application)
    (hget : appGet id db = some app) (hown : app.user_email = current_user) :
    (update_status current_user id newStatus db).1 =
      Except.ok { app with status := newStatus } ∧
    (update_status current_user id newStatus db).2 =
      db.map (fun a =>
        if a.id == app.id then { app with status := newStatus } else a) ∧
    ({ app with status := newStatus }).status = newStatus ∧
    ({ app with status := newStatus }).id = app.id ∧
    ({ app with status := newStatus }).user_email = app.user_email ∧
    ({ app with status := newStatus }).company = app.company ∧
    ({ app with status := newStatus }).role = app.role ∧
    ({ app with status := newStatus }).applied_date = app.applied_date ∧
    ({ app with status := newStatus }).job_description = app.job_description ∧
    ({ app with status := newStatus }).resume_text = app.resume_text ∧
    ({ app with status := newStatus }).match_score = app.match_score ∧
    ({ app with status := newStatus }).missing_keywords = app.missing_keywords ∧
    ({ app with status := newStatus }).next_action_date = app.next_action_date ∧
    ({ app with status := newStatus }).reminder_note = app.reminder_note := by
  refine ⟨?_, ?_, rfl, rfl, rfl, rfl, rfl, rfl, rfl, rfl, rfl, rfl, rfl, rfl⟩ <;>
    simp [update_status, hget, hown]

/-- Witness for C9: updating the status of an owned record returns that
record with only `status` changed. -/
theorem c9_update_only_status_witness :
    (update_status "u@x.com" 7 "Interview" [sampleAppOfU]).1 =
      Except.ok
        ⟨some 7, "u@x.com", "Acme", "Dev", "Interview", 5, some "jd", none, 42,
          ["k"], some 99, some "note"⟩ :=
  (c9_update_only_status "u@x.com" 7 "Interview" [sampleAppOfU] sampleAppOfU
    (by decide) rfl).1

/- ### Claim theorems: auth and defaults -/

/-- C3: evaluation of `signup` at a duplicate email.  The claim says the
duplicate-email case fails with HTTP 400 Conflict; the code's own
`raise HTTPException(400, "Email already registered")` sits inside the
blanket `try/except Exception`, which re-raises it as
`HTTPException(500, str(e))`, so the observed status is 500.  The
non-duplicate half of the claim holds: a fresh email is persisted with
the hashed password and `{"message": "User created"}` is returned. -/
theorem c3_signup_conflict_returns_500 :
    signup (fun s => "hash:" ++ s) 0 "a@x.com" "pw"
        [⟨"a@x.com", "hash:old", 0⟩] =
      (Except.error ⟨500, "400: Email already registered"⟩,
        [⟨"a@x.com", "hash:old", 0⟩]) ∧
    (500 : Nat) ≠ 400 ∧
    signup (fun s => "hash:" ++ s) 0 "b@x.com" "pw"
        [⟨"a@x.com", "hash:old", 0⟩] =
      (Except.ok "User created",
        [⟨"a@x.com", "hash:old", 0⟩, ⟨"b@x.com", "hash:pw", 0⟩]) := by
  refine ⟨?_, by decide, ?_⟩ <;> rfl

/-- C8: the Pydantic default `applied_date: datetime = datetime.now()` in
`api/models.py` is evaluated once, at class-definition time.  Any two
records created from drafts lacking an applied date — whatever the
caller, the store, or the instant of creation — therefore both carry
`applied_date = loadTime`, the module-load instant, and in particular
carry equal applied dates, contradicting the claimed
default of record-creation time. -/
theorem c8_applied_date_is_load_time (loadTime : Int)
    (caller1 caller2 ue1 co1 ro1 ue2 co2 ro2 : String)
    (db1 db2 : List Application) (n1 n2 : Nat) :
    (create_app caller1
        (applicationFromDraft loadTime ue1 co1 ro1 none none none none none
          none none none) db1 n1).1.applied_date = loadTime ∧
    (create_app caller2
        (applicationFromDraft loadTime ue2 co2 ro2 none none none none none
          none none none) db2 n2).1.applied_date = loadTime ∧
    (create_app caller1
        (applicationFromDraft loadTime ue1 co1 ro1 none none none none none
          none none none) db1 n1).1.applied_date =
      (create_app caller2
        (applicationFromDraft loadTime ue2 co2 ro2 none none none none none
          none none none) db2 n2).1.applied_date := by
  exact ⟨rfl, rfl, rfl⟩

/- ### Claim theorems: automation engine -/

/-- C4: for an application of the caller in a store with distinct id
strings, the automation pass emits the "alert" notification carrying
that application's id and company exactly when `next_action_date` is
present and lies strictly between `now` and `now + 24` hours. -/
theorem c4_interview_alert_iff (current_user : String) (today : Int)
    (db : List Application) (app : Application)
    (hmem : app ∈ db) (hown : app.user_email = current_user)
    (hids : (db.map (fun a => pyStrId a.id)).Nodup) :
    (Notification.mk (pyStrId app.id) "alert" (interviewMsg app.company) ∈
        run_automation current_user today db) ↔
      ∃ d, app.next_action_date = some d ∧ 0 < d - today ∧ d - today < 86400 := by
  rw [mem_run_automation]
  constructor
  · rintro ⟨a, hadb, -, hn⟩
    rw [mem_appNotifications] at hn
    rcases hn with ⟨hcond, heq⟩ | ⟨-, heq⟩
    · have hid : pyStrId a.id = pyStrId app.id := by
        have := congrArg Notification.id heq
        exact this.symm
      have : a = app := List.inj_on_of_nodup_map hids hadb hmem hid
      rwa [this] at hcond
    · have := congrArg Notification.type heq
      simp at this
  · rintro ⟨d, hd, h1, h2⟩
    refine ⟨app, hmem, hown, ?_⟩
    rw [mem_appNotifications]
    exact Or.inl ⟨⟨d, hd, h1, h2⟩, rfl⟩

/-- An application with an interview in 5 hours, used by witnesses. -/
def appInterviewSoon : Application :=
  ⟨some 3, "u@x.com", "Acme", "Dev", "Interview", 0, none, none, 0, [],
    some 18000, none⟩

/-- Witness for C4: with `next_action_date = now + 5` hours the alert
notification fires. -/
theorem c4_interview_alert_iff_witness :
    Notification.mk (pyStrId appInterviewSoon.id) "alert"
        (interviewMsg appInterviewSoon.company) ∈
      run_automation "u@x.com" 0 [appInterviewSoon] :=
  (c4_interview_alert_iff "u@x.com" 0 [appInterviewSoon] appInterviewSoon
      (by decide) rfl (by decide)).mpr
    ⟨18000, rfl, by decide, by decide⟩

/-- An application whose elapsed time since `applied_date` is 14 days
and 1 hour at the instant `1213200`. -/
def appStale14d1h : Application :=
  ⟨some 4, "u@x.com", "Acme", "Dev", "Applied", 0, none, none, 0, [],
    none, none⟩

/-- Counterexample to C5 as stated: at `today = 1213200` seconds the
elapsed time since `applied_date = 0` is `14·86400 + 3600` seconds,
which strictly exceeds 14 days, and `status = "Applied"`; yet the code
compares `timedelta.days` (the floor of elapsed whole days, here 14)
against 14 and emits nothing. -/
theorem c5_counterexample :
    (appStale14d1h.status = "Applied" ∧
      appStale14d1h.user_email = "u@x.com" ∧
      14 * 86400 < (1213200 : Int) - appStale14d1h.applied_date) ∧
    Notification.mk (pyStrId appStale14d1h.id) "info"
        (staleMsg appStale14d1h.company) ∉
      run_automation "u@x.com" 1213200 [appStale14d1h] := by
  decide

/-- An application for which both automation rules fire at `today = 0`:
applied 15 days ago with status "Applied", interview in 5 hours. -/
def appBothRules : Application :=
  ⟨some 5, "u@x.com", "Acme", "Dev", "Applied", -1296000, none, none, 0, [],
    some 18000, none⟩

/-- C5 (amended): the "info" follow-up notification for a caller-owned
application is emitted exactly when `status = "Applied"` and the floor
of the elapsed whole days `⌊(today − applied_date)/86400⌋` exceeds 14 —
that is, at least 15 full days have elapsed — and the two automation
rules are not mutually exclusive: an application can receive both the
alert and the info notification in the same pass. -/
theorem c5_stale_info_iff (current_user : String) (today : Int)
    (db : List Application) (app : Application)
    (hmem : app ∈ db) (hown : app.user_email = current_user)
    (hids : (db.map (fun a => pyStrId a.id)).Nodup) :
    ((Notification.mk (pyStrId app.id) "info" (staleMsg app.company) ∈
        run_automation current_user today db) ↔
      (app.status = "Applied" ∧
        14 < Int.fdiv (today - app.applied_date) 86400)) ∧
    run_automation "u@x.com" 0 [appBothRules] =
      [⟨pyStrId appBothRules.id, "alert", interviewMsg appBothRules.company⟩,
        ⟨pyStrId appBothRules.id, "info", staleMsg appBothRules.company⟩] := by
  refine ⟨?_, by decide⟩
  rw [mem_run_automation]
  constructor
  · rintro ⟨a, hadb, -, hn⟩
    rw [mem_appNotifications] at hn
    rcases hn with ⟨-, heq⟩ | ⟨hcond, heq⟩
    · have := congrArg Notification.type heq
      simp at this
    · have hid : pyStrId a.id = pyStrId app.id := by
        have := congrArg Notification.id heq
        exact this.symm
      have : a = app := List.inj_on_of_nodup_map hids hadb hmem hid
      rwa [this] at hcond
  · rintro ⟨h1, h2⟩
    refine ⟨app, hmem, hown, ?_⟩
    rw [mem_appNotifications]
    exact Or.inr ⟨⟨h1, h2⟩, rfl⟩

/-- Witness for the amended C5: an application applied 15 days ago with
status "Applied" receives the info notification. -/
theorem c5_stale_info_iff_witness :
    Notification.mk (pyStrId appBothRules.id) "info"
        (staleMsg appBothRules.company) ∈
      run_automation "u@x.com" 0 [appBothRules] :=
  (c5_stale_info_iff "u@x.com" 0 [appBothRules] appBothRules
      (by decide) rfl (by decide)).1.mpr ⟨rfl, by decide⟩

/- ### Python string primitives used by `api/ai_utils.py` -/

/-- The ASCII whitespace stripped by Python `str.strip()` (the Unicode
space characters Python also strips are outside the model). -/
def pyWs (c : Char) : Bool :=
  c == ' ' || c == '\t' || c == '\n' || c == '\r' || c == '\x0b' || c == '\x0c'

/-- Python `str.strip()`: drop whitespace from both ends. -/
def pyStrip (s : List Char) : List Char :=
  ((s.dropWhile pyWs).reverse.dropWhile pyWs).reverse

/-- Left-to-right, non-overlapping replacement of every occurrence of
`pat`, fuelled by the input length (each step consumes at least one
character, so `s.length` fuel is always enough). -/
def pyReplaceAux (pat rep : List Char) : Nat → List Char → List Char
  | 0, s => s
  | _ + 1, [] => []
  | fuel + 1, c :: rest =>
    if pat.isPrefixOf (c :: rest) then
      rep ++ pyReplaceAux pat rep fuel ((c :: rest).drop pat.length)
    else
      c :: pyReplaceAux pat rep fuel rest

/-- Python `s.replace(pat, rep)` for a nonempty `pat` (the two call
sites pass "```json" and "```"; the empty-pattern case, where Python
interleaves `rep` between all characters, is not modelled). -/
def pyReplace (s pat rep : List Char) : List Char :=
  if pat.isEmpty then s else pyReplaceAux pat rep s.length s

/-- `pyReplace` on `String`. -/
def pyReplaceStr (s pat rep : String) : String :=
  String.mk (pyReplace s.data pat.data rep.data)

/-- `pyStrip` on `String`. -/
def pyStripStr (s : String) : String :=
  String.mk (pyStrip s.data)

/- ### A model of Python `json.loads`

JSON values as Python's json module produces them.  Numbers are kept as
exact rationals in lowest terms (numerator, positive denominator);
Python's int/float distinction and the float rounding of large decimals
are outside the model, as are the non-standard `NaN`/`Infinity`
literals, which denote IEEE floats.  Object fields are kept in parse
order; the claims involve no duplicate keys. -/

inductive JsonValue where
  | null
  | bool (b : Bool)
  | num (numerator : Int) (denominator : Nat)
  | str (s : String)
  | arr (elems : List JsonValue)
  | obj (fields : List (String × JsonValue))

/-- Whitespace the JSON grammar allows between tokens. -/
def jsonWs (c : Char) : Bool := c == ' ' || c == '\t' || c == '\n' || c == '\r'

/-- Skip inter-token whitespace. -/
def skipWs (s : List Char) : List Char := s.dropWhile jsonWs

/-- Value of one hex digit of a `\uXXXX` escape. -/
def hexDigitVal (c : Char) : Option Nat :=
  if '0' ≤ c ∧ c ≤ '9' then some (c.toNat - 48)
  else if 'a' ≤ c ∧ c ≤ 'f' then some (c.toNat - 87)
  else if 'A' ≤ c ∧ c ≤ 'F' then some (c.toNat - 55)
  else none

/-- The single-character JSON string escapes. -/
def escChar : Char → Option Char
  | '"' => some '"'
  | '\\' => some '\\'
  | '/' => some '/'
  | 'b' => some '\x08'
  | 'f' => some '\x0c'
  | 'n' => some '\n'
  | 'r' => some '\r'
  | 't' => some '\t'
  | _ => none

/-- Parse the body of a JSON string after the opening quote, returning
the decoded characters and the input after the closing quote.  Python's
strict mode rejects raw control characters; surrogate-pair combining of
two `\uXXXX` escapes is outside the model. -/
def parseStringBody : List Char → Option (List Char × List Char)
  | [] => none
  | '"' :: rest => some ([], rest)
  | '\\' :: 'u' :: h1 :: h2 :: h3 :: h4 :: rest =>
    match hexDigitVal h1, hexDigitVal h2, hexDigitVal h3, hexDigitVal h4 with
    | some a, some b, some c, some d =>
      (parseStringBody rest).map
        (fun p => (Char.ofNat (((a * 16 + b) * 16 + c) * 16 + d) :: p.1, p.2))
    | _, _, _, _ => none
  | '\\' :: e :: rest =>
    match escChar e with
    | some c => (parseStringBody rest).map (fun p => (c :: p.1, p.2))
    | none => none
  | c :: rest =>
    if c.toNat < 32 then none
    else (parseStringBody rest).map (fun p => (c :: p.1, p.2))

/-- Numeric value of a digit run. -/
def digitsToNat (ds : List Char) : Nat :=
  ds.foldl (fun acc c => acc * 10 + (c.toNat - 48)) 0

/-- Reduce a fraction to lowest terms. -/
def mkJsonNum (n : Int) (d : Nat) : Int × Nat :=
  let g := Nat.gcd n.natAbs d
  (Int.tdiv n (Int.ofNat g), d / g)

/-- Parse the exponent part after `e`/`E`: optional sign, then at least
one digit. -/
def parseExp (r : List Char) : Option (Int × List Char) :=
  let p :=
    match r with
    | '+' :: t => ((1 : Int), t)
    | '-' :: t => ((-1 : Int), t)
    | _ => ((1 : Int), r)
  let q := p.2.span Char.isDigit
  if q.1.isEmpty then none else some (p.1 * digitsToNat q.1, q.2)

/-- Parse a JSON number per the grammar Python's json module uses:
`-? (0 | [1-9][0-9]*) (. [0-9]+)? ([eE][+-]?[0-9]+)?`, returned as a
reduced fraction. -/
def parseNumber (s : List Char) : Option ((Int × Nat) × List Char) :=
  let sp :=
    match s with
    | '-' :: r => (true, r)
    | _ => (false, s)
  let intRes : Option (Nat × List Char) :=
    match sp.2 with
    | '0' :: r => some (0, r)
    | c :: _ =>
      if c.isDigit then
        let p := sp.2.span Char.isDigit
        some (digitsToNat p.1, p.2)
      else none
    | [] => none
  match intRes with
  | none => none
  | some (ip, r1) =>
    let fracRes : Option (Nat × Nat × List Char) :=
      match r1 with
      | '.' :: r2 =>
        let p := r2.span Char.isDigit
        if p.1.isEmpty then none else some (digitsToNat p.1, p.1.length, p.2)
      | _ => some (0, 0, r1)
    match fracRes with
    | none => none
    | some (fv, fl, r3) =>
      let expRes : Option (Int × List Char) :=
        match r3 with
        | 'e' :: r4 => parseExp r4
        | 'E' :: r4 => parseExp r4
        | _ => some (0, r3)
      match expRes with
      | none => none
      | some (ex, r5) =>
        let mantissa : Int := (ip * 10 ^ fl + fv : Nat)
        let signed : Int := if sp.1 then -mantissa else mantissa
        if 0 ≤ ex then
          some (mkJsonNum (signed * (10 ^ ex.toNat : Nat)) (10 ^ fl), r5)
        else
          some (mkJsonNum signed (10 ^ (fl + (-ex).toNat)), r5)

/-- The recursive-descent state: a value, the remaining elements of an
array, or the remaining members of an object. -/
inductive PTask where
  | value
  | elems (acc : List JsonValue)
  | members (acc : List (String × JsonValue))

/-- The fuelled recursive-descent JSON reader.  Every recursive call
spends one unit of fuel and at most two calls happen per input
character, so `2·length + 4` fuel (as supplied by `json_loads`) never
runs out. -/
def parseJ : Nat → PTask → List Char → Option (JsonValue × List Char)
  | 0, _, _ => none
  | fuel + 1, PTask.value, s =>
    match s with
    | [] => none
    | 'n' :: 'u' :: 'l' :: 'l' :: r => some (JsonValue.null, r)
    | 't' :: 'r' :: 'u' :: 'e' :: r => some (JsonValue.bool true, r)
    | 'f' :: 'a' :: 'l' :: 's' :: 'e' :: r => some (JsonValue.bool false, r)
    | '"' :: r =>
      match parseStringBody r with
      | some (cs, r1) => some (JsonValue.str (String.mk cs), r1)
      | none => none
    | '[' :: r =>
      match skipWs r with
      | ']' :: r1 => some (JsonValue.arr [], r1)
      | r1 => parseJ fuel (PTask.elems []) r1
    | '{' :: r =>
      match skipWs r with
      | '}' :: r1 => some (JsonValue.obj [], r1)
      | r1 => parseJ fuel (PTask.members []) r1
    | c :: _ =>
      if c == '-' || c.isDigit then
        match parseNumber s with
        | some (q, r1) => some (JsonValue.num q.1 q.2, r1)
        | none => none
      else none
  | fuel + 1, PTask.elems acc, s =>
    match parseJ fuel PTask.value s with
    | some (v, r1) =>
      match skipWs r1 with
      | ',' :: r2 => parseJ fuel (PTask.elems (acc ++ [v])) (skipWs r2)
      | ']' :: r2 => some (JsonValue.arr (acc ++ [v]), r2)
      | _ => none
    | none => none
  | fuel + 1, PTask.members acc, s =>
    match s with
    | '"' :: r =>
      match parseStringBody r with
      | some (key, r1) =>
        match skipWs r1 with
        | ':' :: r2 =>
          match parseJ fuel PTask.value (skipWs r2) with
          | some (v, r3) =>
            match skipWs r3 with
            | ',' :: r4 =>
              parseJ fuel (PTask.members (acc ++ [(String.mk key, v)])) (skipWs r4)
            | '}' :: r4 => some (JsonValue.obj (acc ++ [(String.mk key, v)]), r4)
            | _ => none
          | none => none
        | _ => none
      | none => none
    | _ => none

/-- Model of Python `json.loads`: parse one JSON value and require only
whitespace to remain. -/
def json_loads (s : String) : Option JsonValue :=
  match parseJ (2 * s.data.length + 4) PTask.value (skipWs s.data) with
  | some (v, rest) => if (skipWs rest).isEmpty then some v else none
  | none => none

/- ### AI flows (`api/ai_utils.py`) -/

/-- `get_gemini_response`: call the text-completion service inside
`try/except`; if the call raises an exception `e`, return `str(e)`
instead.  The opaque `generate_content` parameter stands for
`genai.GenerativeModel("gemini-1.5-flash").generate_content(prompt).text`,
with its error branch carrying the stringified exception. -/
def get_gemini_response (generate_content : String → Except String String)
    (prompt : String) : String :=
  match generate_content prompt with
  | Except.ok text => text
  | Except.error e => e

/-- The ATS-scanner prompt of `analyze_resume_ai`, with both inputs
truncated to their first 2000 characters. -/
def analyzePrompt (resume_text job_desc : String) : String :=
  "\n    Act as an ATS Scanner. Compare this Resume and Job Description (JD).\n    Resume: "
    ++ resume_text.take 2000
    ++ "...\n    JD: "
    ++ job_desc.take 2000
    ++ "...\n    \n    Output ONLY valid JSON format:\n    \x7b\n        \"match_score\": (integer 0-100),\n        \"missing_keywords\": [\"list\", \"of\", \"missing\", \"skills\"],\n        \"advice\": \"1 sentence advice\"\n    \x7d\n    "

/-- The markdown-fence cleanup of `analyze_resume_ai`:
`raw_text.replace("```json", "").replace("```", "").strip()`. -/
def cleanResponse (raw_text : String) : String :=
  pyStripStr (pyReplaceStr (pyReplaceStr raw_text "```json" "") "```" "")

/-- The fixed result the `except` branch of `analyze_resume_ai` returns
when `json.loads` fails. -/
def fallbackAnalysis : JsonValue :=
  JsonValue.obj
    [("match_score", JsonValue.num 0 1),
      ("missing_keywords", JsonValue.arr []),
      ("advice", JsonValue.str "Error parsing AI response")]

/-- `analyze_resume_ai`: build the prompt, obtain the (possibly
error-text) response, strip fences, and `json.loads` it, falling back
to `fallbackAnalysis` on any parse failure. -/
def analyze_resume_ai (generate_content : String → Except String String)
    (resume_text job_desc : String) : JsonValue :=
  let prompt := analyzePrompt resume_text job_desc
  let raw_text := get_gemini_response generate_content prompt
  match json_loads (cleanResponse raw_text) with
  | some v => v
  | none => fallbackAnalysis

/-- The cold-email prompt of `generate_cold_email_ai`. -/
def coldEmailPrompt (job_desc user_role : String) : String :=
  "\n    Write a professional, concise cold email to a recruiter for this Job Description.\n    My Role: "
    ++ user_role
    ++ "\n    Job Description: "
    ++ job_desc
    ++ "\n    \n    Output ONLY the email body text. No subject line placeholders.\n    "

/-- `generate_cold_email_ai` (the Python parameter `user_role` defaults
to `"Developer"`; the route calls it with that default). -/
def generate_cold_email_ai (generate_content : String → Except String String)
    (job_desc user_role : String) : String :=
  get_gemini_response generate_content (coldEmailPrompt job_desc user_role)

/-- The fixed persona line of `chat_with_gemini`. -/
def systemInstruction : String :=
  "You are a helpful Career Coach assistant named \x27SmartIntern\x27."

/-- The chat prompt of `chat_with_gemini`. -/
def chatPrompt (message context : String) : String :=
  "\n    " ++ systemInstruction
    ++ "\n    Context: " ++ context
    ++ "\n    \n    User: " ++ message
    ++ "\n    Assistant:\n    "

/-- `chat_with_gemini` (the Python parameter `context` defaults to `""`;
the route passes `req.context`, itself defaulted to `""`). -/
def chat_with_gemini (generate_content : String → Except String String)
    (message context : String) : String :=
  get_gemini_response generate_content (chatPrompt message context)

/-- `POST /api/ai/analyze` (`ai_analyze`): returns the analysis as the
response body; the handler contains no `raise`, so the result is always
the success branch. -/
def ai_analyze (generate_content : String → Except String String)
    (resume_text job_description : String) : Except HTTPException JsonValue :=
  Except.ok (analyze_resume_ai generate_content resume_text job_description)

/-- `POST /api/ai/cold-email` (`ai_email`): returns
`{"email": email_body}`; the handler contains no `raise`. -/
def ai_email (generate_content : String → Except String String)
    (job_description : String) : Except HTTPException JsonValue :=
  Except.ok (JsonValue.obj
    [("email",
      JsonValue.str (generate_cold_email_ai generate_content job_description
        "Developer"))])

/-- `POST /api/ai/chat` (`ai_chat`): returns `{"reply": response}`; the
handler contains no `raise`. -/
def ai_chat (generate_content : String → Except String String)
    (message context : String) : Except HTTPException JsonValue :=
  Except.ok (JsonValue.obj
    [("reply", JsonValue.str (chat_with_gemini generate_content message context))])

/- ### Substring occurrence, for stating what a payload mentions -/

/-- Does `needle` occur contiguously in `hay`? -/
def listContains (needle : List Char) : List Char → Bool
  | [] => needle.isEmpty
  | c :: rest => needle.isPrefixOf (c :: rest) || listContains needle rest

/-- Does the text `needle` occur anywhere in a JSON payload (in a
string leaf or an object key)?  Fuelled recursion over the nested
value; used only to state claims about concrete payloads, with ample
fuel. -/
def mentionsText : Nat → List Char → JsonValue → Bool
  | 0, _, _ => false
  | fuel + 1, needle, v =>
    match v with
    | JsonValue.str s => listContains needle s.data
    | JsonValue.arr xs => xs.any (fun w => mentionsText fuel needle w)
    | JsonValue.obj fs =>
      fs.any (fun p => listContains needle p.1.data || mentionsText fuel needle p.2)
    | _ => false

/- ### Claim theorems: AI flows -/

/-- C6: `analyze_resume_ai` is the parse of the fence-stripped response
(strip first, parse second), so a fenced JSON response still parses to
the structured result; whenever the parse fails the fixed fallback is
returned — the function is total, so nothing ever escapes this
boundary. -/
theorem c6_analyze_fences_and_fallback (resume_text job_desc raw : String) :
    (analyze_resume_ai (fun _ => Except.ok raw) resume_text job_desc =
      match json_loads (cleanResponse raw) with
      | some v => v
      | none => fallbackAnalysis) ∧
    (json_loads (cleanResponse raw) = none →
      analyze_resume_ai (fun _ => Except.ok raw) resume_text job_desc =
        fallbackAnalysis) ∧
    cleanResponse "```json\n\x7b\"match_score\": 82\x7d\n```" =
      "\x7b\"match_score\": 82\x7d" ∧
    analyze_resume_ai
        (fun _ => Except.ok
          "```json\n\x7b\"match_score\": 82, \"missing_keywords\": [\"go\"], \"advice\": \"Learn Go.\"\x7d\n```")
        resume_text job_desc =
      JsonValue.obj
        [("match_score", JsonValue.num 82 1),
          ("missing_keywords", JsonValue.arr [JsonValue.str "go"]),
          ("advice", JsonValue.str "Learn Go.")] := by
  refine ⟨rfl, ?_, rfl, rfl⟩
  intro h
  simp [analyze_resume_ai, get_gemini_response, h]

/-- Witness for C6: a plain-prose response fails to parse and yields the
fixed fallback. -/
theorem c6_analyze_fences_and_fallback_witness :
    analyze_resume_ai (fun _ => Except.ok "Sorry, I cannot produce JSON today.")
        "my resume" "the jd" = fallbackAnalysis :=
  (c6_analyze_fences_and_fallback "my resume" "the jd"
    "Sorry, I cannot produce JSON today.").2.1 (by rfl)

/-- An AI-provider error message used in the C7 theorems. -/
def upstreamErrText : String :=
  "503 The model is overloaded. Please try again later."

/-- Counterexample to C7 as stated: when the completion call raises,
the cold-email flow does return the stringified exception inside its
payload, but the analyze flow feeds the exception text through the
JSON-parse pipeline, which fails, and returns the fixed fallback — a
payload in which the exception text does not occur anywhere. -/
theorem c7_counterexample :
    ai_email (fun _ => Except.error upstreamErrText) "some jd" =
      Except.ok (JsonValue.obj [("email", JsonValue.str upstreamErrText)]) ∧
    ai_analyze (fun _ => Except.error upstreamErrText) "my resume" "some jd" =
      Except.ok fallbackAnalysis ∧
    mentionsText 1000 upstreamErrText.data fallbackAnalysis = false := by
  exact ⟨rfl, rfl, rfl⟩

/-- C7 (amended): when the completion call raises, none of the three
flows propagates an HTTP-level error; the cold-email and chat flows
return the stringified exception text as their payload, and the analyze
flow swallows the error into its parse pipeline, returning the parsed
value if the exception text happens to be JSON and the fixed fallback
otherwise. -/
theorem c7_ai_error_swallowed (err resume_text job_desc message context : String)
    (generate_content : String → Except String String)
    (h : ∀ p, generate_content p = Except.error err) :
    ai_email generate_content job_desc =
      Except.ok (JsonValue.obj [("email", JsonValue.str err)]) ∧
    ai_chat generate_content message context =
      Except.ok (JsonValue.obj [("reply", JsonValue.str err)]) ∧
    ai_analyze generate_content resume_text job_desc =
      Except.ok
        (match json_loads (cleanResponse err) with
        | some v => v
        | none => fallbackAnalysis) := by
  refine ⟨?_, ?_, ?_⟩ <;>
    simp [ai_email, ai_chat, ai_analyze, generate_cold_email_ai,
      chat_with_gemini, analyze_resume_ai, get_gemini_response, h]

/-- Witness for the amended C7: a concrete always-failing provider. -/
theorem c7_ai_error_swallowed_witness :
    ai_email (fun _ => Except.error "quota exhausted") "some jd" =
      Except.ok (JsonValue.obj [("email", JsonValue.str "quota exhausted")]) :=
  (c7_ai_error_swallowed "quota exhausted" "my resume" "some jd" "hi" ""
    (fun _ => Except.error "quota exhausted") (fun _ => rfl)).1

/-- C10: `analyze_resume_ai` does no schema validation — any value the
fence-stripped response parses to is returned verbatim, object or not
(witnessed concretely by a bare number and a bare array), and the fixed
fallback is returned exactly on parse failure. -/
theorem c10_no_schema_validation (resume_text job_desc raw : String) :
    (∀ v, json_loads (cleanResponse raw) = some v →
      analyze_resume_ai (fun _ => Except.ok raw) resume_text job_desc = v) ∧
    (json_loads (cleanResponse raw) = none →
      analyze_resume_ai (fun _ => Except.ok raw) resume_text job_desc =
        fallbackAnalysis) ∧
    analyze_resume_ai (fun _ => Except.ok "42") resume_text job_desc =
      JsonValue.num 42 1 ∧
    analyze_resume_ai (fun _ => Except.ok "[1, 2]") resume_text job_desc =
      JsonValue.arr [JsonValue.num 1 1, JsonValue.num 2 1] := by
  have huniv : ∀ r v, json_loads (cleanResponse r) = some v →
      analyze_resume_ai (fun _ => Except.ok r) resume_text job_desc = v := by
    intro r v h
    simp [analyze_resume_ai, get_gemini_response, h]
  have hfail : json_loads (cleanResponse raw) = none →
      analyze_resume_ai (fun _ => Except.ok raw) resume_text job_desc =
        fallbackAnalysis := by
    intro h
    simp [analyze_resume_ai, get_gemini_response, h]
  exact ⟨huniv raw, hfail,
    huniv "42" (JsonValue.num 42 1) (by rfl),
    huniv "[1, 2]" (JsonValue.arr [JsonValue.num 1 1, JsonValue.num 2 1]) (by rfl)⟩

/-- Witness for C10: a successfully parsed non-object response is
returned verbatim. -/
theorem c10_no_schema_validation_witness :
    analyze_resume_ai (fun _ => Except.ok "[true]") "my resume" "the jd" =
      JsonValue.arr [JsonValue.bool true] :=
  (c10_no_schema_validation "my resume" "the jd" "[true]").1
    (JsonValue.arr [JsonValue.bool true]) (by rfl)

end SmartIntern
